import Mathlib

/-!
Verification of the DBQuery library core: the transaction-scope state
machine (`db.py`), the retry-wrapped execution loop (`query.py`), and the
result-shaping helpers (`SelectOne`, `Manipulation`, `to_dict_formatter`).

The Python code is shallowly embedded: each Python method becomes a Lean
function over an explicit state; calls to the backend hooks `_begin`,
`_commit`, `_rollback` are recorded as events in a trace; raised Python
exceptions become values of the `Exc` type carried in `Except` / `Option`.
-/

namespace DBQuery

/-- Python exception values relevant to the library.
`operational` stands for an instance of the backend operational-error
class; `rollbackMarker` is `_DBRollbackException`; `contextManager` is
`DBContextManagerError`; `manipulationCheck` is `ManipulationCheckError`
carrying the actual and the expected row counts; `runtimeError` is
`RuntimeError`; `user` is an arbitrary application exception. -/
inductive Exc where
  | operational
  | rollbackMarker
  | contextManager (msg : String)
  | manipulationCheck (actual expected : Int)
  | runtimeError (msg : String)
  | user (n : Nat)
deriving DecidableEq, Repr

/-- `isinstance(e, _DBRollbackException)`. -/
def Exc.isRollbackMarker : Exc → Bool
  | .rollbackMarker => true
  | _ => false

/-- Backend calls observable through the abstract hooks of `DB`. -/
inductive Ev where
  | begin
  | commit
  | rollback
deriving DecidableEq, Repr

/-- The mutable attributes of a `DB` object (`db.py`): `_retry`,
`_orig_retry` and `_transaction_level`.  Python attributes may hold
`None`, hence the `Option` on the two retry fields. -/
structure DBState where
  retry : Option Int
  origRetry : Option Int
  transactionLevel : Int
deriving DecidableEq, Repr

/-- `DB.__init__(retry)`: `_retry = retry`, `_orig_retry = None`,
`_transaction_level = 0`. -/
def mkDB (retry : Int) : DBState := ⟨some retry, none, 0⟩

/-- `DB.__enter__`: on the first context level call `_begin`, save the
retry value into `_orig_retry` and set `_retry = 0`; in every case
increment `_transaction_level`.  Returns the new state and the backend
calls made. -/
def DBState.enter (s : DBState) : DBState × List Ev :=
  if s.transactionLevel = 0 then
    ({ retry := some 0, origRetry := s.retry,
       transactionLevel := s.transactionLevel + 1 }, [.begin])
  else
    ({ s with transactionLevel := s.transactionLevel + 1 }, [])

/-- Message of the `DBContextManagerError` raised on an unbalanced exit;
`l` is the (negative) level reached. -/
def illegalLevelMsg (l : Int) : String :=
  "Illegal transaction level reached: " ++ toString l ++ "."

/-- Message of the `DBContextManagerError` raised by `abort_transaction`
outside a transaction. -/
def noTransactionMsg : String := "No Transaction in progress."

/-- Result of `DB.__exit__`: either the method itself raised, or it
returned a boolean telling Python whether to suppress the exception
coming from the scope body. -/
inductive ExitOutcome where
  | raised (e : Exc)
  | returned (suppress : Bool)
deriving DecidableEq, Repr

/-- The value returned by `DB.__exit__` (its last statement):
`not exc_value or (self._transaction_level == 0 and
isinstance(exc_value, _DBRollbackException))`, where `lvl` is the
already-decremented transaction level. -/
def exitReturnVal (lvl : Int) (exc : Option Exc) : Bool :=
  match exc with
  | none => true
  | some e => decide (lvl = 0) && e.isRollbackMarker

/-- `DB.__exit__(exc_type, exc_value, traceback)`.  `exc` is the
exception raised by the scope body (`None` when it finished normally).
`rollbackExc` / `commitExc` model the behaviour of the backend hooks
`_rollback` / `_commit`: `some e` means the hook raises `e`, `none`
means it returns normally.  Output: new state, backend calls made, and
the outcome (a raised exception, or the returned suppress flag). -/
def DBState.exit (s : DBState) (exc : Option Exc)
    (rollbackExc commitExc : Option Exc) :
    DBState × List Ev × ExitOutcome :=
  let lvl := s.transactionLevel - 1
  if lvl < 0 then
    ({ s with transactionLevel := 0 }, [],
      .raised (.contextManager (illegalLevelMsg lvl)))
  else if lvl = 0 then
    match exc with
    | some _ =>
      match rollbackExc with
      | some e => ({ s with transactionLevel := lvl }, [.rollback], .raised e)
      | none =>
        ({ retry := s.origRetry, origRetry := none, transactionLevel := lvl },
          [.rollback], .returned (exitReturnVal lvl exc))
    | none =>
      match commitExc with
      | some e => ({ s with transactionLevel := lvl }, [.commit], .raised e)
      | none =>
        ({ retry := s.origRetry, origRetry := none, transactionLevel := lvl },
          [.commit], .returned (exitReturnVal lvl exc))
  else
    ({ s with transactionLevel := lvl }, [], .returned (exitReturnVal lvl exc))

/-- `DB.abort_transaction`: raises `DBContextManagerError` when
`_transaction_level <= 0`, else raises the abort marker
`_DBRollbackException`.  It makes no backend call (empty event list) and
does not modify the state. -/
def DBState.abortTransaction (s : DBState) : List Ev × Exc :=
  if s.transactionLevel ≤ 0 then ([], .contextManager noTransactionMsg)
  else ([], .rollbackMarker)

/-- Python `with db: body` semantics: call `__enter__`, run the body,
call `__exit__` with the body's exception; when `__exit__` raises, that
exception propagates; when it returns `True`, the body's exception is
suppressed.  The backend hooks are assumed to return normally here. -/
def withScope (s : DBState)
    (body : DBState → DBState × List Ev × Option Exc) :
    DBState × List Ev × Option Exc :=
  let es := s.enter
  let bs := body es.1
  let xs := bs.1.exit bs.2.2 none none
  match xs.2.2 with
  | .raised e => (xs.1, es.2 ++ bs.2.1 ++ xs.2.1, some e)
  | .returned sup =>
    (xs.1, es.2 ++ bs.2.1 ++ xs.2.1, if sup then none else bs.2.2)

/-- `d` nested `with db:` scopes around `body`. -/
def nestedScopes (d : Nat) (body : DBState → DBState × List Ev × Option Exc)
    (s : DBState) : DBState × List Ev × Option Exc :=
  match d with
  | 0 => body s
  | Nat.succ d => withScope s (nestedScopes d body)

/-- A scope body that finishes normally, touching nothing. -/
def noopBody : DBState → DBState × List Ev × Option Exc :=
  fun s => (s, [], none)

/-- A scope body that raises the exception `e`. -/
def raiseBody (e : Exc) : DBState → DBState × List Ev × Option Exc :=
  fun s => (s, [], some e)

/-- A scope body that calls `db.abort_transaction()` (which always
raises). -/
def abortBody : DBState → DBState × List Ev × Option Exc :=
  fun s => (s, s.abortTransaction.1, some s.abortTransaction.2)

/-- The retry loop of `Query.__call__` (`query.py`).  `isOp e` models
`isinstance(e, self._db.OperationalError)`; `retry` is `self._db.retry`;
`backend k` is the outcome of the `k`-th `self._execute_function` call
(`.ok v` when it returns `v`, `.error e` when it raises `e`);
`retryCount` is the loop variable `retry_count`.  Returns the number of
execute attempts made, the number of `self._db.close()` calls made, and
the final outcome. -/
def queryLoop (isOp : Exc → Bool) (retry : Int)
    (backend : Int → Except Exc α) (retryCount : Int) :
    Nat × Nat × Except Exc α :=
  match backend retryCount with
  | .ok v => (1, 0, .ok v)
  | .error e =>
    if isOp e then
      if retryCount < retry then
        let r := queryLoop isOp retry backend (retryCount + 1)
        (r.1 + 1, r.2.1 + 1, r.2.2)
      else
        (1, 0, .error e)
    else
      (1, 0, .error e)
termination_by (retry - retryCount).toNat
decreasing_by simp_wf; omega

/-- `Query.__call__` starts its loop with `retry_count = 1`. -/
def queryCall (isOp : Exc → Bool) (retry : Int)
    (backend : Int → Except Exc α) : Nat × Nat × Except Exc α :=
  queryLoop isOp retry backend 1

/-- `Manipulation._produce_return` (`query.py`): returns
`cursor.rowcount`, first raising `ManipulationCheckError` when an
expected count was set and differs. -/
def Manipulation.produceReturn (expected : Option Int) (rowcount : Int) :
    Except Exc Int :=
  match expected with
  | some e =>
    if e ≠ rowcount then .error (.manipulationCheck rowcount e)
    else .ok rowcount
  | none => .ok rowcount

/-- The (dynamically typed) value returned by
`SelectOne._produce_return`: the `None` sentinel, a single unwrapped
column value, a whole row, or the output of the row formatter. -/
inductive SelectOneResult (α β : Type) where
  | noResult
  | scalar (v : α)
  | row (r : List α)
  | formatted (b : β)
deriving DecidableEq, Repr

/-- `SelectOne._produce_return` (`query.py`): `fetchmany(2)` is the
first two rows of the result set; anything but exactly one row yields
the sentinel; one row is formatted when a formatter is set, unwrapped
when it has exactly one column, returned whole otherwise.  `desc` is the
cursor's column metadata, handed to the formatter together with the
row. -/
def SelectOne.produceReturn
    (rowFormatter : Option (List α → Option (List String) → β))
    (desc : Option (List String)) (results : List (List α)) :
    SelectOneResult α β :=
  match results.take 2 with
  | [row] =>
    match rowFormatter with
    | some f => .formatted (f row desc)
    | none =>
      match row with
      | [v] => .scalar v
      | _ => .row row
  | _ => .noResult

/-- The value returned by `to_dict_formatter`: either the row passed
through unchanged, or a name-to-value dictionary (modelled as the
association list produced by the zip). -/
inductive FormatterResult (α : Type) where
  | raw (r : List α)
  | dict (entries : List (String × α))
deriving DecidableEq, Repr

/-- `to_dict_formatter(row, cursor)` (`query.py`): an empty row is
returned unchanged; with no cursor description a `RuntimeError` is
raised; otherwise the row values are zipped with the column names taken
from the description (`d[0]`), keyed by name.  `desc` is `none` when the
cursor is `None` or its `description` is `None`, `some names`
otherwise. -/
def to_dict_formatter (row : List α) (desc : Option (List String)) :
    Except Exc (FormatterResult α) :=
  if row.isEmpty then .ok (.raw row)
  else
    match desc with
    | none => .error (.runtimeError "No DB-API cursor or description available.")
    | some names => .ok (.dict ((row.zip names).map (fun p => (p.2, p.1))))

/-- The invariant on `DB` states maintained by the transaction scope
machinery: the live retry value is an integer (never `None`), the saved
retry value is present exactly while a transaction is open, and the
nesting level never stays negative. -/
def DBInv (s : DBState) : Prop :=
  s.retry.isSome = true ∧
  (s.origRetry.isSome = true ↔ 0 < s.transactionLevel) ∧
  0 ≤ s.transactionLevel

instance (s : DBState) : Decidable (DBInv s) := by
  unfold DBInv; infer_instance

/-- The operational-error test of the base `DB` class: `OperationalError
= Exception` (`db.py` line 34), so `isinstance(e, Exception)` holds for
every exception. -/
def catchAllOp : Exc → Bool := fun _ => true

/-- The operational-error test of a backend such as `PostgresDB`, whose
`OperationalError` is the driver's operational-error class: only
operational errors are instances of it. -/
def strictIsOp : Exc → Bool
  | .operational => true
  | _ => false

/-- A backend whose execute raises an operational error on every
attempt. -/
def alwaysOpBackend : Int → Except Exc Unit := fun _ => .error .operational

/-- A backend whose execute runs `Manipulation._produce_return` with
expected row count 1 against a cursor reporting rowcount 2 on every
attempt, so every attempt raises `ManipulationCheckError`. -/
def manipFailBackend : Int → Except Exc Int :=
  fun _ => Manipulation.produceReturn (some 1) 2

/-! Branch lemmas for `DBState.enter` and `DBState.exit`. -/

lemma enter_zero (s : DBState) (h : s.transactionLevel = 0) :
    s.enter = (⟨some 0, s.retry, 1⟩, [Ev.begin]) := by
  simp [DBState.enter, h]

lemma enter_pos (s : DBState) (h : s.transactionLevel ≠ 0) :
    s.enter = ({ s with transactionLevel := s.transactionLevel + 1 }, []) := by
  simp [DBState.enter, h]

lemma exit_neg (s : DBState) (h : s.transactionLevel ≤ 0)
    (exc rb cb : Option Exc) :
    s.exit exc rb cb = ({ s with transactionLevel := 0 }, [],
      .raised (.contextManager (illegalLevelMsg (s.transactionLevel - 1)))) := by
  have h1 : s.transactionLevel - 1 < 0 := by omega
  simp [DBState.exit, h1]

lemma exit_inner (s : DBState) (h : 2 ≤ s.transactionLevel)
    (exc rb cb : Option Exc) :
    s.exit exc rb cb = ({ s with transactionLevel := s.transactionLevel - 1 },
      [], .returned (exitReturnVal (s.transactionLevel - 1) exc)) := by
  have h1 : ¬ s.transactionLevel - 1 < 0 := by omega
  have h2 : ¬ s.transactionLevel - 1 = 0 := by omega
  simp [DBState.exit, h1, h2]

lemma exit_outer (s : DBState) (h : s.transactionLevel = 1) (exc : Option Exc) :
    s.exit exc none none = (⟨s.origRetry, none, 0⟩,
      [if exc.isSome then Ev.rollback else Ev.commit],
      .returned (exitReturnVal 0 exc)) := by
  have h1 : ¬ s.transactionLevel - 1 < 0 := by omega
  have h2 : s.transactionLevel - 1 = 0 := by omega
  cases exc with
  | none => simp [DBState.exit, h1, h2]
  | some e => simp [DBState.exit, h1, h2]

lemma exit_outer_rollback_raises (s : DBState) (h : s.transactionLevel = 1)
    (u e : Exc) (cb : Option Exc) :
    s.exit (some u) (some e) cb =
      ({ s with transactionLevel := 0 }, [Ev.rollback], .raised e) := by
  have h1 : ¬ s.transactionLevel - 1 < 0 := by omega
  have h2 : s.transactionLevel - 1 = 0 := by omega
  simp [DBState.exit, h1, h2]

lemma exit_outer_commit_raises (s : DBState) (h : s.transactionLevel = 1)
    (e : Exc) (rb : Option Exc) :
    s.exit none rb (some e) =
      ({ s with transactionLevel := 0 }, [Ev.commit], .raised e) := by
  have h1 : ¬ s.transactionLevel - 1 < 0 := by omega
  have h2 : s.transactionLevel - 1 = 0 := by omega
  simp [DBState.exit, h1, h2]

/-! Nested transaction scopes. -/

/-- A scope body that leaves the state alone, makes no backend call and
finishes with outcome `r?` behaves the same under any number of nested
scopes started strictly inside a transaction: the inner enter/exit pairs
make no backend call, do not change the state, and pass the outcome
through. -/
lemma nestedScopes_inner (r? : Option Exc)
    (body : DBState → DBState × List Ev × Option Exc)
    (hbody : ∀ s, 1 ≤ s.transactionLevel → body s = (s, [], r?)) :
    ∀ (d : Nat) (s : DBState), 1 ≤ s.transactionLevel →
      nestedScopes d body s = (s, [], r?) := by
  intro d
  induction d with
  | zero => intro s hs; exact hbody s hs
  | succ d ih =>
    intro s hs
    have he : s.enter = ({ s with transactionLevel := s.transactionLevel + 1 }, []) :=
      enter_pos s (by omega)
    have hi : nestedScopes d body { s with transactionLevel := s.transactionLevel + 1 } =
        ({ s with transactionLevel := s.transactionLevel + 1 }, [], r?) :=
      ih _ (by simp; omega)
    have hx : ({ s with transactionLevel := s.transactionLevel + 1 } : DBState).exit
        r? none none =
        ({ s with transactionLevel := s.transactionLevel }, [],
          .returned (exitReturnVal s.transactionLevel r?)) := by
      have := exit_inner { s with transactionLevel := s.transactionLevel + 1 }
        (by simp; omega) r? none none
      simpa using this
    show withScope s (nestedScopes d body) = (s, [], r?)
    rw [withScope]
    simp only [he, hi, hx]
    cases r? with
    | none => simp [exitReturnVal]
    | some e =>
      have h0 : ¬ s.transactionLevel = 0 := by omega
      simp [exitReturnVal, h0]

/-- A full nested run of `d ≥ 1` scopes from an idle handle, with a body
that leaves the state alone and finishes with outcome `r?`: one `_begin`,
then one `_commit` (body finished normally) or one `_rollback` (body
raised); the abort marker is consumed at the outermost exit, every other
exception propagates; the final state equals the initial one. -/
lemma nestedScopes_top (r : Int) (d : Nat) (hd : 1 ≤ d) (r? : Option Exc)
    (body : DBState → DBState × List Ev × Option Exc)
    (hbody : ∀ s, 1 ≤ s.transactionLevel → body s = (s, [], r?)) :
    nestedScopes d body ⟨some r, none, 0⟩ =
      (⟨some r, none, 0⟩,
       [Ev.begin, if r?.isSome then Ev.rollback else Ev.commit],
       r?.bind (fun e => if e.isRollbackMarker then none else some e)) := by
  obtain ⟨d', rfl⟩ : ∃ d', d = d' + 1 := ⟨d - 1, by omega⟩
  have he : (⟨some r, none, 0⟩ : DBState).enter =
      (⟨some 0, some r, 1⟩, [Ev.begin]) := enter_zero _ rfl
  have hi : nestedScopes d' body ⟨some 0, some r, 1⟩ =
      (⟨some 0, some r, 1⟩, [], r?) :=
    nestedScopes_inner r? body hbody d' _ (by norm_num)
  have hx : (⟨some 0, some r, 1⟩ : DBState).exit r? none none =
      (⟨some r, none, 0⟩, [if r?.isSome then Ev.rollback else Ev.commit],
        .returned (exitReturnVal 0 r?)) := exit_outer _ rfl r?
  show withScope _ (nestedScopes d' body) = _
  rw [withScope]
  simp only [he, hi, hx]
  cases r? with
  | none => simp [exitReturnVal]
  | some e => cases he' : e.isRollbackMarker <;> simp [exitReturnVal, he']

/-- A backend failing with an operational error on every attempt makes
the retry loop run until `retry_count` reaches the retry value: starting
from `retry_count = k ≤ retry`, it makes `(retry - k) + 1` attempts and
`retry - k` closes, then propagates the operational error. -/
lemma queryLoop_allFail (isOp : Exc → Bool) (retry : Int) {α : Type}
    (backend : Int → Except Exc α)
    (hfail : ∀ k, backend k = .error .operational)
    (hop : isOp .operational = true) :
    ∀ (n : Nat) (k : Int), (retry - k).toNat = n → k ≤ retry →
      queryLoop isOp retry backend k = (n + 1, n, .error .operational) := by
  intro n
  induction n with
  | zero =>
    intro k hn hk
    have hnlt : ¬ k < retry := by omega
    rw [queryLoop.eq_def, hfail k]
    simp [hop, hnlt]
  | succ n ih =>
    intro k hn hk
    have hlt : k < retry := by omega
    rw [queryLoop.eq_def, hfail k]
    simp only [hop, if_true, hlt, if_pos]
    rw [ih (k + 1) (by omega) (by omega)]

/-- C1: for every retry budget `N > 1`, calling a Query whose backend
execute raises an operational error on every attempt makes exactly `N`
execute attempts, closing the connection between attempts (`N - 1`
closes), and then propagates the operational error; for every budget
`N ≤ 1` it makes exactly one attempt (no close) and propagates
immediately. -/
theorem claim1_retry_budget {α : Type} (N : Int) (isOp : Exc → Bool)
    (backend : Int → Except Exc α)
    (hfail : ∀ k, backend k = .error .operational)
    (hop : isOp .operational = true) :
    (1 < N →
      queryCall isOp N backend = (N.toNat, N.toNat - 1, .error .operational)) ∧
    (N ≤ 1 → queryCall isOp N backend = (1, 0, .error .operational)) := by
  constructor
  · intro hN
    have h := queryLoop_allFail isOp N backend hfail hop (N - 1).toNat 1 rfl
      (by omega)
    unfold queryCall
    rw [h]
    simp only [Prod.mk.injEq]
    exact ⟨by omega, by omega, trivial⟩
  · intro hN
    have hnlt : ¬ (1 : Int) < N := by omega
    unfold queryCall
    rw [queryLoop.eq_def, hfail 1]
    simp [hop, hnlt]

theorem claim1_witness :
    (∀ k, alwaysOpBackend k = .error .operational) ∧
    strictIsOp .operational = true ∧
    queryCall strictIsOp 3 alwaysOpBackend = (3, 2, .error .operational) :=
  ⟨fun _ => rfl, rfl, by
    have h := (claim1_retry_budget 3 strictIsOp alwaysOpBackend
      (fun _ => rfl) rfl).1 (by decide)
    exact h⟩

/-- C2: for every nesting depth `d ≥ 1`, entering a transaction scope
`d` times and exiting `d` times with no error in the body makes the
backend see exactly one `_begin` and exactly one `_commit` and zero
`_rollback` calls; the nested enter/exit pairs add no backend call, and
the final state equals the initial one. -/
theorem claim2_nested_commit (d : Nat) (r : Int) (hd : 1 ≤ d) :
    nestedScopes d noopBody (mkDB r) = (mkDB r, [Ev.begin, Ev.commit], none) ∧
    (nestedScopes d noopBody (mkDB r)).2.1.count Ev.begin = 1 ∧
    (nestedScopes d noopBody (mkDB r)).2.1.count Ev.commit = 1 ∧
    (nestedScopes d noopBody (mkDB r)).2.1.count Ev.rollback = 0 := by
  have h := nestedScopes_top r d hd none noopBody (fun s _ => rfl)
  simp only [Option.isSome_none, Bool.false_eq_true, if_false,
    Option.none_bind] at h
  refine ⟨h, ?_, ?_, ?_⟩ <;> simp only [mkDB] <;> rw [h] <;> rfl

theorem claim2_witness :
    1 ≤ 3 ∧
    nestedScopes 3 noopBody (mkDB 7) = (mkDB 7, [Ev.begin, Ev.commit], none) :=
  ⟨by decide, (claim2_nested_commit 3 7 (by decide)).1⟩

/-- C3: `abort_transaction` at depth 0 raises the
no-transaction-in-progress `DBContextManagerError` and makes no backend
call; inside an open scope (any nesting depth `d ≥ 1`) it raises the
abort marker, which unwinds through every nested exit without
committing, triggers exactly one `_rollback` at the outermost exit, and
is consumed there, so the run finishes without an exception. -/
theorem claim3_abort (d : Nat) (r : Int) (hd : 1 ≤ d) :
    (∀ s : DBState, s.transactionLevel = 0 →
      s.abortTransaction = ([], Exc.contextManager noTransactionMsg)) ∧
    nestedScopes d abortBody (mkDB r) =
      (mkDB r, [Ev.begin, Ev.rollback], none) ∧
    (nestedScopes d abortBody (mkDB r)).2.1.count Ev.rollback = 1 ∧
    (nestedScopes d abortBody (mkDB r)).2.1.count Ev.commit = 0 := by
  have hbody : ∀ s : DBState, 1 ≤ s.transactionLevel →
      abortBody s = (s, [], some Exc.rollbackMarker) := by
    intro s hs
    have h0 : ¬ s.transactionLevel ≤ 0 := by omega
    simp [abortBody, DBState.abortTransaction, h0]
  have h := nestedScopes_top r d hd (some Exc.rollbackMarker) abortBody hbody
  simp only [Option.isSome_some, if_true, Option.some_bind,
    Exc.isRollbackMarker] at h
  refine ⟨?_, h, ?_, ?_⟩
  · intro s h0
    have : s.transactionLevel ≤ 0 := by omega
    simp [DBState.abortTransaction, this]
  · simp only [mkDB]; rw [h]; rfl
  · simp only [mkDB]; rw [h]; rfl

theorem claim3_witness :
    1 ≤ 2 ∧
    nestedScopes 2 abortBody (mkDB 4) =
      (mkDB 4, [Ev.begin, Ev.rollback], none) :=
  ⟨by decide, (claim3_abort 2 4 (by decide)).2.1⟩

/-- C4: for every exception `e` other than the abort marker raised
inside a transaction scope of any nesting depth `d ≥ 1`, unwinding
makes exactly one `_begin`, zero `_commit` and exactly one `_rollback`
(at the outermost exit), and `e` itself propagates out of the outermost
scope unchanged. -/
theorem claim4_error_unwind (d : Nat) (r : Int) (e : Exc) (hd : 1 ≤ d)
    (he : e ≠ Exc.rollbackMarker) :
    nestedScopes d (raiseBody e) (mkDB r) =
      (mkDB r, [Ev.begin, Ev.rollback], some e) ∧
    (nestedScopes d (raiseBody e) (mkDB r)).2.1.count Ev.begin = 1 ∧
    (nestedScopes d (raiseBody e) (mkDB r)).2.1.count Ev.commit = 0 ∧
    (nestedScopes d (raiseBody e) (mkDB r)).2.1.count Ev.rollback = 1 := by
  have hm : e.isRollbackMarker = false := by
    cases e <;> try rfl
    exact absurd rfl he
  have h := nestedScopes_top r d hd (some e) (raiseBody e) (fun s _ => rfl)
  simp only [Option.isSome_some, if_true, Option.some_bind, hm,
    Bool.false_eq_true, if_false] at h
  refine ⟨h, ?_, ?_, ?_⟩ <;> simp only [mkDB] <;> rw [h] <;> rfl

theorem claim4_witness :
    Exc.user 0 ≠ Exc.rollbackMarker ∧
    nestedScopes 2 (raiseBody (Exc.user 0)) (mkDB 0) =
      (mkDB 0, [Ev.begin, Ev.rollback], some (Exc.user 0)) :=
  ⟨by decide, (claim4_error_unwind 2 0 (Exc.user 0) (by decide) (by decide)).1⟩

/-- C5: a fresh handle satisfies the invariant; entering the outermost
scope saves the live retry budget into `_orig_retry` and sets the live
budget to 0, nested enters change neither; the outermost exit (with
succeeding backend hooks) restores the saved budget and clears it,
nested exits change neither; `enter` and (succeeding) `exit` preserve
the invariant that the saved budget is non-null iff the depth is
positive, and the depth is never negative after either completes. -/
theorem claim5_invariant (r : Int) (s : DBState) (h : DBInv s) :
    DBInv (mkDB r) ∧
    (s.transactionLevel = 0 → s.enter = (⟨some 0, s.retry, 1⟩, [Ev.begin])) ∧
    (1 ≤ s.transactionLevel →
      s.enter = ({ s with transactionLevel := s.transactionLevel + 1 }, [])) ∧
    DBInv s.enter.1 ∧
    (∀ exc, DBInv (s.exit exc none none).1) ∧
    (∀ exc, s.transactionLevel = 1 →
      (s.exit exc none none).1 = ⟨s.origRetry, none, 0⟩) ∧
    (∀ exc rb cb, 2 ≤ s.transactionLevel →
      (s.exit exc rb cb).1 =
        { s with transactionLevel := s.transactionLevel - 1 }) ∧
    0 ≤ s.enter.1.transactionLevel ∧
    (∀ exc, 0 ≤ (s.exit exc none none).1.transactionLevel) := by
  obtain ⟨h1, h2, h3⟩ := h
  have henter : DBInv s.enter.1 := by
    by_cases h0 : s.transactionLevel = 0
    · rw [enter_zero s h0]
      refine ⟨rfl, ?_, by norm_num⟩
      show s.retry.isSome = true ↔ (0 : Int) < 1
      simp [h1]
    · rw [enter_pos s h0]
      refine ⟨h1, ?_, ?_⟩
      · show s.origRetry.isSome = true ↔ 0 < s.transactionLevel + 1
        rw [h2]; omega
      · show (0 : Int) ≤ s.transactionLevel + 1
        omega
  have hexit : ∀ exc, DBInv (s.exit exc none none).1 := by
    intro exc
    rcases lt_trichotomy s.transactionLevel 1 with hl | hl | hl
    · have h0 : s.transactionLevel = 0 := by omega
      rw [exit_neg s (by omega) exc none none]
      refine ⟨h1, ?_, le_refl 0⟩
      show s.origRetry.isSome = true ↔ (0 : Int) < 0
      rw [h2]; omega
    · rw [exit_outer s hl exc]
      refine ⟨?_, ?_, le_refl 0⟩
      · show s.origRetry.isSome = true
        rw [h2]; omega
      · show (none : Option Int).isSome = true ↔ (0 : Int) < 0
        simp
    · rw [exit_inner s (by omega) exc none none]
      refine ⟨h1, ?_, ?_⟩
      · show s.origRetry.isSome = true ↔ 0 < s.transactionLevel - 1
        rw [h2]; omega
      · show (0 : Int) ≤ s.transactionLevel - 1
        omega
  refine ⟨⟨rfl, by simp [mkDB], le_refl 0⟩,
    fun h0 => enter_zero s h0, fun h0 => enter_pos s (by omega),
    henter, hexit, ?_, ?_, henter.2.2, fun exc => (hexit exc).2.2⟩
  · intro exc h0
    rw [exit_outer s h0 exc]
  · intro exc rb cb h0
    rw [exit_inner s (by omega) exc rb cb]

theorem claim5_witness :
    DBInv (mkDB 5) ∧ DBInv (mkDB 5).enter.1 :=
  ⟨(claim5_invariant 5 (mkDB 5) (by decide)).1,
   (claim5_invariant 5 (mkDB 5) (by decide)).2.2.2.1⟩

/-- C6 (counterexample to the claim as stated): under the base `DB`
class the operational-error class is `Exception` (`db.py` line 34), so a
`ManipulationCheckError` raised inside execute IS an instance of it and
IS retried: with retry budget 2 and every attempt running
`Manipulation._produce_return` with expected count 1 against rowcount 2,
the call makes 2 execute attempts and 1 close — a retry was triggered,
refuting "this error never triggers a retry, for any retry budget and
any backend". -/
theorem claim6_counterexample :
    queryCall catchAllOp 2 manipFailBackend =
      (2, 1, .error (.manipulationCheck 2 1)) ∧
    catchAllOp (.manipulationCheck 2 1) = true := by
  constructor
  · unfold queryCall
    rw [queryLoop.eq_def]
    simp only [manipFailBackend, Manipulation.produceReturn, catchAllOp]
    norm_num
    rw [queryLoop.eq_def]
    simp only [manipFailBackend, Manipulation.produceReturn, catchAllOp]
    norm_num
  · rfl

/-- C6 (amended): a `Manipulation` call with an expected row count
returns the backend rowcount when it matches and raises
`ManipulationCheckError` carrying actual and expected count when it
differs; on a backend whose operational-error class does not cover
`ManipulationCheckError` (such as `PostgresDB`), the error never
triggers a retry: the attempt that raises it is the last, for every
retry budget.  (Under the base `DB` default `OperationalError =
Exception` the error is caught and retried like an operational one.) -/
theorem claim6_rowcount_check (expected rowcount : Int) (isOp : Exc → Bool)
    (N k : Int) (backend : Int → Except Exc Int)
    (hnotop : isOp (.manipulationCheck rowcount expected) = false)
    (hbk : backend k = .error (.manipulationCheck rowcount expected)) :
    (expected = rowcount →
      Manipulation.produceReturn (some expected) rowcount = .ok rowcount) ∧
    (expected ≠ rowcount →
      Manipulation.produceReturn (some expected) rowcount =
        .error (.manipulationCheck rowcount expected)) ∧
    queryLoop isOp N backend k =
      (1, 0, .error (.manipulationCheck rowcount expected)) := by
  refine ⟨?_, ?_, ?_⟩
  · intro he; simp [Manipulation.produceReturn, he]
  · intro he; simp [Manipulation.produceReturn, he]
  · rw [queryLoop.eq_def, hbk]
    simp [hnotop]

theorem claim6_witness :
    strictIsOp (Exc.manipulationCheck 2 1) = false ∧
    manipFailBackend 1 = .error (.manipulationCheck 2 1) ∧
    queryLoop strictIsOp 5 manipFailBackend 1 =
      (1, 0, .error (.manipulationCheck 2 1)) :=
  ⟨rfl, rfl,
    (claim6_rowcount_check 1 2 strictIsOp 5 1 manipFailBackend rfl rfl).2.2⟩

/-- C7: an `__exit__` beyond the matching `__enter__` count (depth
already ≤ 0) raises `DBContextManagerError`, resets the depth to 0, and
performs no backend call — neither commit nor rollback. -/
theorem claim7_unbalanced (s : DBState) (exc rb cb : Option Exc)
    (h : s.transactionLevel ≤ 0) :
    s.exit exc rb cb = ({ s with transactionLevel := 0 }, [],
      .raised (.contextManager (illegalLevelMsg (s.transactionLevel - 1)))) ∧
    (s.exit exc rb cb).1.transactionLevel = 0 ∧
    (s.exit exc rb cb).2.1 = [] := by
  have h' := exit_neg s h exc rb cb
  exact ⟨h', by rw [h'], by rw [h']⟩

theorem claim7_witness :
    (mkDB 3).transactionLevel ≤ 0 ∧
    (mkDB 3).exit (some (Exc.user 1)) none none =
      (mkDB 3, [],
        .raised (.contextManager (illegalLevelMsg (0 - 1)))) :=
  ⟨by decide,
    (claim7_unbalanced (mkDB 3) (some (Exc.user 1)) none none (by decide)).1⟩

/-- C8: `SelectOne._produce_return` looks only at the first two fetched
rows; with 0 or ≥ 2 rows it yields the no-result sentinel; with exactly
one row it applies the formatter when present, else unwraps a
single-column row to its value, else returns the row. -/
theorem claim8_selectOne {α β : Type}
    (fmt : Option (List α → Option (List String) → β))
    (desc : Option (List String)) (results : List (List α)) :
    ((results.length = 0 ∨ 2 ≤ results.length) →
      SelectOne.produceReturn fmt desc results = .noResult) ∧
    (∀ row f, results = [row] → fmt = some f →
      SelectOne.produceReturn fmt desc results = .formatted (f row desc)) ∧
    (∀ v, results = [[v]] → fmt = none →
      SelectOne.produceReturn fmt desc results = .scalar v) ∧
    (∀ row, results = [row] → fmt = none → row.length ≠ 1 →
      SelectOne.produceReturn fmt desc results = .row row) ∧
    (∀ results2, results.take 2 = results2.take 2 →
      SelectOne.produceReturn fmt desc results =
        SelectOne.produceReturn fmt desc results2) := by
  refine ⟨?_, ?_, ?_, ?_, ?_⟩
  · intro hlen
    rcases results with _ | ⟨a, _ | ⟨b, t⟩⟩
    · rfl
    · rcases hlen with h | h <;> simp at h
    · rfl
  · rintro row f rfl rfl; rfl
  · rintro v rfl rfl; rfl
  · rintro row rfl rfl hlen
    rcases row with _ | ⟨a, _ | ⟨b, t⟩⟩
    · rfl
    · simp at hlen
    · rfl
  · intro results2 htake
    unfold SelectOne.produceReturn
    rw [htake]

theorem claim8_witness :
    SelectOne.produceReturn (α := Int) (β := Int) none none [] = .noResult ∧
    SelectOne.produceReturn (α := Int) (β := Int) none none [[7]] = .scalar 7 ∧
    SelectOne.produceReturn (α := Int) (β := Int) none none [[1, 2]] =
      .row [1, 2] ∧
    SelectOne.produceReturn (α := Int) (β := Int) none none [[1], [2]] =
      .noResult :=
  ⟨(claim8_selectOne none none []).1 (Or.inl rfl),
   (claim8_selectOne none none [[7]]).2.2.1 7 rfl rfl,
   (claim8_selectOne none none [[1, 2]]).2.2.2.1 [1, 2] rfl rfl (by decide),
   (claim8_selectOne none none [[1], [2]]).1 (Or.inr (by decide))⟩

/-- C9 (code bug): `to_dict_formatter` passes an empty row through,
raises `RuntimeError` without metadata, and zips names with values —
but, contrary to its own docstring ("Note: converts column names to
lower-case!") and to the claim, it does NOT lower-case the column
names: on row `(0,)` with column name `"TEST"` it keys the entry by
`"TEST"`, not `"test"`. -/
theorem claim9_formatter_divergence :
    to_dict_formatter ([] : List Int) (some ["TEST"]) = .ok (.raw []) ∧
    to_dict_formatter [(0 : Int)] none =
      .error (.runtimeError "No DB-API cursor or description available.") ∧
    to_dict_formatter [(0 : Int), 1] (some ["test", "test2"]) =
      .ok (.dict [("test", 0), ("test2", 1)]) ∧
    to_dict_formatter [(0 : Int)] (some ["TEST"]) = .ok (.dict [("TEST", 0)]) ∧
    to_dict_formatter [(0 : Int)] (some ["TEST"]) ≠ .ok (.dict [("test", 0)]) := by
  refine ⟨rfl, rfl, rfl, rfl, fun h => ?_⟩
  simp [to_dict_formatter] at h

/-- C10: when the backend `_rollback` (or `_commit`) raises at the
outermost scope exit, the depth has already been decremented to 0 but
the budget-restoring lines never run: the live retry budget stays 0 and
the saved budget stays set; a subsequent outermost `enter` overwrites
the saved value (with the still-zero live budget). -/
theorem claim10_failed_finish (r : Int) (u e : Exc) (rb cb : Option Exc) :
    (DBState.mk (some 0) (some r) 1).exit (some u) (some e) cb =
      (⟨some 0, some r, 0⟩, [Ev.rollback], .raised e) ∧
    (DBState.mk (some 0) (some r) 1).exit none rb (some e) =
      (⟨some 0, some r, 0⟩, [Ev.commit], .raised e) ∧
    (DBState.mk (some 0) (some r) 0).enter = (⟨some 0, some 0, 1⟩, [Ev.begin]) := by
  refine ⟨?_, ?_, ?_⟩
  · exact exit_outer_rollback_raises _ rfl u e cb
  · exact exit_outer_commit_raises _ rfl e rb
  · exact enter_zero _ rfl

end DBQuery
